import Mathlib

/-!
# Shallow embedding of `src/login/logind-session-dbus.c`

This file embeds the session D-Bus façade of systemd-logind: the controller
registry (`TakeControl` / `ReleaseControl`), the device lease table
(`TakeDevice` / `ReleaseDevice` / `PauseDeviceComplete`), the `Kill` argument
validation, and the session addressing scheme (`session_bus_path`,
`session_object_find`, `session_node_enumerator`).

Pure data is embedded directly; external collaborators (device-open, the bus
reply channel, memory allocation, `session_kill`, sender-pid resolution) are
explicit oracle parameters.  Helper functions living in other translation
units of the repository (`logind-session.c`, `logind-session-device.c`,
`bus-util.c`, kill-who string table) are modelled from the spec, as marked on
each definition.
-/

deriving instance DecidableEq for Except

namespace Logind

/-- Generic association-list lookup, the embedding of `hashmap_get`: the C
hashmaps hold at most one entry per key, modelled as the first match of an
association list. -/
def hashmap_get {α β : Type} [DecidableEq α] : List (α × β) → α → Option β
  | [], _ => none
  | (k, v) :: t, k' => if k = k' then some v else hashmap_get t k'

/-- Removal of every entry for a key; with the at-most-one-entry-per-key
invariant this is exactly the `hashmap_remove` of the C hashmap. -/
def hashmap_remove {α β : Type} [DecidableEq α] : List (α × β) → α → List (α × β)
  | [], _ => []
  | (k, v) :: t, k' => if k = k' then hashmap_remove t k' else (k, v) :: hashmap_remove t k'

/-- In-place update of the entries for a key (used by the pause-complete
acknowledgment, which mutates the lease record through its pointer). -/
def hashmap_update {α β : Type} [DecidableEq α] : List (α × β) → α → (β → β) → List (α × β)
  | [], _, _ => []
  | (k, v) :: t, k', f =>
      if k = k' then (k, f v) :: hashmap_update t k' f else (k, v) :: hashmap_update t k' f

/-- A device identifier: the (major, minor) pair.  The C code packs the pair
into a `dev_t` with the injective libc `makedev`; the pair itself is the
identifier. -/
abbrev DevId := Nat × Nat

/-- A device lease record (`SessionDevice`): the exclusively owned
file-descriptor resource, the active/paused flag, and the pending-pause
handshake bit. -/
structure SessionDevice where
  major : Nat
  minor : Nat
  fd : Nat
  active : Bool
  pausePending : Bool
deriving DecidableEq, Repr

/-- The per-session state this core arbitrates: the opaque session
identifier, the owning user's uid, the single-slot controller binding
(the sender identity, absent when no controller), and the device lease
table keyed by device identifier. -/
structure Session where
  id : String
  userUid : Nat
  controller : Option String
  devices : List (DevId × SessionDevice)
deriving DecidableEq, Repr

/-- Errors surfaced to the caller by the methods embedded here. -/
inductive BusError where
  /-- `SD_BUS_ERROR_ACCESS_DENIED` -/
  | accessDenied
  /-- `BUS_ERROR_NOT_IN_CONTROL` -/
  | notInControl
  /-- `BUS_ERROR_DEVICE_IS_TAKEN` -/
  | deviceIsTaken
  /-- `BUS_ERROR_DEVICE_NOT_TAKEN` -/
  | deviceNotTaken
  /-- `SD_BUS_ERROR_INVALID_ARGS` -/
  | invalidArgs
  /-- a raw negative errno forwarded by `sd_bus_reply_method_errno` -/
  | errno (e : Int)
deriving DecidableEq, Repr

/-- Modelled from the spec: `session_is_controller` (declared in
`logind-session.h`, defined outside the slice) — "pure query" comparing the
sender identity against the current binding, false "including when there is
no binding at all". -/
def session_is_controller (s : Session) (sender : String) : Bool :=
  s.controller == some sender

/-- Modelled from the spec: `session_set_controller` (defined outside the
slice) — "acquiring a new binding either fails (no force, different
non-privileged owner) or atomically replaces/evicts the previous binding";
a failed acquisition surfaces as `AccessDenied` ("take_control with
force=false and a different non-privileged sender when a binding exists must
leave the original binding intact and return AccessDenied") and a request by
the sender already holding the binding trivially succeeds. -/
def session_set_controller (s : Session) (sender : String) (force : Bool) :
    Except BusError Session :=
  if session_is_controller s sender then .ok s
  else if s.controller.isSome ∧ force = false then .error .accessDenied
  else .ok { s with controller := some sender }

/-- Modelled from the spec: `session_drop_controller` (defined outside the
slice) — "On success, clears the binding". -/
def session_drop_controller (s : Session) : Session :=
  { s with controller := none }

/-- `method_take_control`: reads the `force` flag, resolves the caller uid,
denies unless the caller is privileged or is the non-forcing owner, and
otherwise installs the sender as controller.  Returns the post-state and the
reply. -/
def method_take_control (s : Session) (sender : String) (uid : Nat) (force : Bool) :
    Session × Except BusError Unit :=
  if uid ≠ 0 ∧ (force ∨ uid ≠ s.userUid) then
    (s, .error .accessDenied)
  else
    match session_set_controller s sender force with
    | .error e => (s, .error e)
    | .ok s' => (s', .ok ())

/-- `method_release_control`: fails with `NotInControl` unless the sender is
the current controller, otherwise drops the binding. -/
def method_release_control (s : Session) (sender : String) :
    Session × Except BusError Unit :=
  if ¬ session_is_controller s sender then
    (s, .error .notInControl)
  else
    (session_drop_controller s, .ok ())

/-- Modelled from the spec: `session_device_new` (in
`logind-session-device.c`, outside the slice) — "acquires the underlying
device resource (external device-open collaborator), inserts it into the
table" and hands back the record; the external open either fails with a
negative errno or yields the fd and the initial active flag (false when the
device starts paused, e.g. not the foreground VT). -/
def session_device_new (s : Session) (dev : DevId)
    (openResult : Except Int (Nat × Bool)) : Except Int (Session × SessionDevice) :=
  match openResult with
  | .error e => .error e
  | .ok (fd, active) =>
      let sd : SessionDevice :=
        { major := dev.1, minor := dev.2, fd := fd, active := active, pausePending := false }
      .ok ({ s with devices := (dev, sd) :: s.devices }, sd)

/-- Modelled from the spec: `session_device_free` (in
`logind-session-device.c`, outside the slice) — "releases the underlying
resource and removes the table entry"; the resource lives in the entry, so
removing the entry releases it. -/
def session_device_free (s : Session) (dev : DevId) : Session :=
  { s with devices := hashmap_remove s.devices dev }

/-- Modelled from the spec: `session_device_complete_pause` (in
`logind-session-device.c`, outside the slice) — "transitions the lease's
internal state so a future resume can proceed"; the table's key set is
untouched. -/
def session_device_complete_pause (s : Session) (dev : DevId) : Session :=
  { s with devices := hashmap_update s.devices dev (fun sd => { sd with pausePending := false }) }

/-- `method_take_device`: after the controller check, looks the (major,
minor) pair up in the lease table, rejects an existing lease with
`DeviceIsTaken`, otherwise acquires the device via `session_device_new`.
`replyResult` is the outcome of `sd_bus_reply_method_return` (negative on
reply-channel failure); on reply failure the fresh lease is freed again.
Returns the post-state and the reply carrying (fd, inactive flag). -/
def method_take_device (s : Session) (sender : String) (major minor : Nat)
    (openResult : Except Int (Nat × Bool)) (replyResult : Int) :
    Session × Except BusError (Nat × Bool) :=
  if ¬ session_is_controller s sender then
    (s, .error .notInControl)
  else
    match hashmap_get s.devices (major, minor) with
    | some _ => (s, .error .deviceIsTaken)
    | none =>
        match session_device_new s (major, minor) openResult with
        | .error e => (s, .error (.errno e))
        | .ok (s', sd) =>
            if replyResult < 0 then
              (session_device_free s' (major, minor), .error (.errno replyResult))
            else
              (s', .ok (sd.fd, !sd.active))

/-- `method_release_device`: controller check, then lease lookup; absence is
`DeviceNotTaken`, presence frees the lease. -/
def method_release_device (s : Session) (sender : String) (major minor : Nat) :
    Session × Except BusError Unit :=
  if ¬ session_is_controller s sender then
    (s, .error .notInControl)
  else
    match hashmap_get s.devices (major, minor) with
    | none => (s, .error .deviceNotTaken)
    | some _ => (session_device_free s (major, minor), .ok ())

/-- `method_pause_device_complete`: controller check, then lease lookup;
absence is `DeviceNotTaken`, presence acknowledges the pause handshake. -/
def method_pause_device_complete (s : Session) (sender : String) (major minor : Nat) :
    Session × Except BusError Unit :=
  if ¬ session_is_controller s sender then
    (s, .error .notInControl)
  else
    match hashmap_get s.devices (major, minor) with
    | none => (s, .error .deviceNotTaken)
    | some _ => (session_device_complete_pause s (major, minor), .ok ())

/-- The symbolic kill target (`KillWho`). -/
inductive KillWho where
  | leader
  | all
deriving DecidableEq, Repr

/-- Modelled from the spec: `kill_who_from_string` (string table outside the
slice) — "resolve a symbolic target enum from a string"; the symbolic names
are "leader" and "all", anything else is invalid. -/
def kill_who_from_string (w : String) : Option KillWho :=
  if w = "leader" then some .leader
  else if w = "all" then some .all
  else none

/-- `isempty` on a (non-NULL) C string. -/
def isempty (w : String) : Bool :=
  w = ""

/-- The platform signal-number bound `_NSIG`: valid signals are
`1 ≤ signo < NSIG`. -/
def NSIG : Int := 65

/-- `method_kill`: resolves the symbolic target (empty string defaults to
`KILL_ALL`, unknown strings are `InvalidArgs`), validates the signal number
range, then dispatches `session_kill` (an external collaborator whose result
is the `killResult` oracle).  The middle component records whether
`session_kill` was dispatched at all. -/
def method_kill (s : Session) (swho : String) (signo : Int) (killResult : Int) :
    Session × Bool × Except BusError Unit :=
  let who : Option KillWho :=
    if isempty swho then some .all
    else kill_who_from_string swho
  match who with
  | none => (s, false, .error .invalidArgs)
  | some _ =>
      if signo ≤ 0 ∨ NSIG ≤ signo then
        (s, false, .error .invalidArgs)
      else if killResult < 0 then
        (s, true, .error (.errno killResult))
      else
        (s, true, .ok ())

/-- The at-most-one-entry-per-key invariant of the C hashmaps: the keys of
the association list are pairwise distinct. -/
def keysNodup {α β : Type} (h : List (α × β)) : Prop :=
  (h.map Prod.fst).Nodup

instance {α β : Type} [DecidableEq α] (h : List (α × β)) : Decidable (keysNodup h) :=
  inferInstanceAs (Decidable (h.map Prod.fst).Nodup)

/-- The sixteen lowercase hex digit characters, the C table
"0123456789abcdef". -/
def hexdigits : List Char :=
  ("0123456789abcdef" : String).data

/-- Modelled from the spec: `hexchar` (in `util.c`, outside the slice) — the
low nibble of the argument rendered as a lowercase hex digit. -/
def hexchar (n : Nat) : Char :=
  hexdigits.getD (n % 16) '0'

/-- Modelled from the spec: `unhexchar` (in `util.c`, outside the slice) —
the value of one hex digit, or nothing for a non-digit. -/
def unhexchar (c : Char) : Option Nat :=
  if '0' ≤ c ∧ c ≤ '9' then some (c.toNat - '0'.toNat)
  else if 'a' ≤ c ∧ c ≤ 'f' then some (c.toNat - 'a'.toNat + 10)
  else if 'A' ≤ c ∧ c ≤ 'F' then some (c.toNat - 'A'.toNat + 10)
  else none

/-- A character copied verbatim by the path escaping: ASCII letters always,
digits everywhere but in the first position. -/
def char_unescaped (first : Bool) (c : Char) : Bool :=
  decide (('A' ≤ c ∧ c ≤ 'Z') ∨ ('a' ≤ c ∧ c ≤ 'z') ∨
    (first = false ∧ '0' ≤ c ∧ c ≤ '9'))

/-- Modelled from the spec: `bus_path_escape` (in `bus-util.c`, outside the
slice) — "deterministic, reversible escaping of the identifier": every byte
that is not a letter (or a digit beyond the first position) becomes an
underscore followed by its two hex digits. -/
def bus_path_escape_chars : Bool → List Char → List Char
  | _, [] => []
  | first, c :: cs =>
      (if char_unescaped first c then [c]
       else ['_', hexchar (c.toNat / 16), hexchar c.toNat]) ++
        bus_path_escape_chars false cs

/-- String version of `bus_path_escape_chars`, starting in first position. -/
def bus_path_escape (s : String) : String :=
  ⟨bus_path_escape_chars true s.data⟩

/-- Modelled from the spec: `bus_path_unescape` (in `bus-util.c`, outside the
slice) — inverse of the escaping; an underscore followed by two hex digits
decodes to that byte, an invalid escape sequence is taken literally. -/
def bus_path_unescape_chars : List Char → List Char
  | [] => []
  | c :: a :: b :: rest =>
      if c = '_' then
        match unhexchar a, unhexchar b with
        | some x, some y => Char.ofNat (16 * x + y) :: bus_path_unescape_chars rest
        | _, _ => '_' :: bus_path_unescape_chars (a :: b :: rest)
      else c :: bus_path_unescape_chars (a :: b :: rest)
  | c :: cs =>
      if c = '_' then '_' :: bus_path_unescape_chars cs
      else c :: bus_path_unescape_chars cs

/-- String version of `bus_path_unescape_chars`. -/
def bus_path_unescape (s : String) : String :=
  ⟨bus_path_unescape_chars s.data⟩

/-- The embedding of `startswith` on character lists: the remainder of the
first list past the second, when the second is an initial segment. -/
def startswith_chars : List Char → List Char → Option (List Char)
  | l, [] => some l
  | [], _ :: _ => none
  | c :: l, p :: ps => if c = p then startswith_chars l ps else none

/-- `startswith(s, t)`: the suffix of `s` after initial segment `t`, or
nothing. -/
def startswith (s t : String) : Option String :=
  (startswith_chars s.data t.data).map fun l => ⟨l⟩

/-- `session_bus_path`: the fixed namespace followed by the escaped session
identifier. -/
def session_bus_path (s : Session) : String :=
  "/org/freedesktop/login1/session/" ++ bus_path_escape s.id

/-- The manager state this slice consults: the session table keyed by
session identifier. -/
structure Manager where
  sessions : List (String × Session)
deriving DecidableEq, Repr

/-- `session_object_find`: the reserved literal path resolves through the
calling process's session (`callerSession` is the oracle for
`sd_bus_get_owner_pid` + `manager_get_session_by_pid`, nothing when the
sender's session cannot be resolved); any other path under the namespace is
unescaped and looked up in the session table; absence is a normal miss. -/
def session_object_find (m : Manager) (path : String) (callerSession : Option Session) :
    Option Session :=
  if path = "/org/freedesktop/login1/session/self" then
    callerSession
  else
    match startswith path "/org/freedesktop/login1/session/" with
    | none => none
    | some p => hashmap_get m.sessions (bus_path_unescape p)

/-- The loop body of `session_node_enumerator`: one bus path per session,
with `alloc n` the outcome of the n-th allocation (`session_bus_path` +
`strv_push`); the first failed allocation aborts with `-ENOMEM`, dropping
the partial list. -/
def session_node_enumerator_loop :
    List (String × Session) → (Nat → Bool) → Nat → List String → Except Int (List String)
  | [], _, _, acc => .ok acc
  | (_, s) :: rest, alloc, n, acc =>
      if alloc n then
        session_node_enumerator_loop rest alloc (n + 1) (acc ++ [session_bus_path s])
      else
        .error (-12)

/-- `session_node_enumerator`: enumerate the bus path of every session in
the table, or fail wholesale on allocation failure. -/
def session_node_enumerator (m : Manager) (alloc : Nat → Bool) : Except Int (List String) :=
  session_node_enumerator_loop m.sessions alloc 0 []

/-! ### Concrete fixtures used by counterexamples and witnesses -/

/-- A fresh session "S1" owned by uid 1000, no controller, no leases. -/
def S0 : Session :=
  { id := "S1", userUid := 1000, controller := none, devices := [] }

/-- `S0` after connection "A" (uid 1000) took control without force. -/
def s1A : Session :=
  (method_take_control S0 "A" 1000 false).1

/-- A lease record for device (8, 0). -/
def sd80 : SessionDevice :=
  { major := 8, minor := 0, fd := 7, active := true, pausePending := false }

/-- A session controlled by "A" holding a lease on device (8, 0). -/
def sessionWithLease : Session :=
  { id := "S1", userUid := 1000, controller := some "A", devices := [((8, 0), sd80)] }

/-- A session controlled by "A" with an empty lease table. -/
def sessionNoLease : Session :=
  { id := "S1", userUid := 1000, controller := some "A", devices := [] }

/-- A session whose identifier is the reserved literal "self". -/
def Sself : Session :=
  { id := "self", userUid := 0, controller := none, devices := [] }

/-- A manager whose table holds the session with identifier "self". -/
def Mself : Manager :=
  { sessions := [("self", Sself)] }

/-- A session whose identifier "c 1" needs escaping (the space). -/
def Sesc : Session :=
  { id := "c 1", userUid := 1000, controller := none, devices := [] }

/-- A manager whose table holds `Sesc`. -/
def Mesc : Manager :=
  { sessions := [("c 1", Sesc)] }

/-! ### Helper lemmas on the hashmap model -/

theorem hashmap_get_remove_self {α β : Type} [DecidableEq α] (h : List (α × β)) (k : α) :
    hashmap_get (hashmap_remove h k) k = none := by
  induction h with
  | nil => rfl
  | cons e t ih =>
      obtain ⟨k', v⟩ := e
      by_cases hk : k' = k <;> simp [hashmap_remove, hashmap_get, hk, ih]

theorem hashmap_remove_of_get_none {α β : Type} [DecidableEq α] (h : List (α × β)) (k : α)
    (hn : hashmap_get h k = none) : hashmap_remove h k = h := by
  induction h with
  | nil => rfl
  | cons e t ih =>
      obtain ⟨k', v⟩ := e
      by_cases hk : k' = k
      · simp [hashmap_get, hk] at hn
      · simp only [hashmap_get, hk, if_false, ite_false] at hn
        simp [hashmap_remove, hk, ih hn]

theorem not_mem_keys_of_get_none {α β : Type} [DecidableEq α] (h : List (α × β)) (k : α)
    (hn : hashmap_get h k = none) : k ∉ h.map Prod.fst := by
  induction h with
  | nil => simp
  | cons e t ih =>
      obtain ⟨k', v⟩ := e
      by_cases hk : k' = k
      · simp [hashmap_get, hk] at hn
      · simp only [hashmap_get, hk, if_false, ite_false] at hn
        simp only [List.map_cons, List.mem_cons]
        rintro (rfl | hmem)
        · exact hk rfl
        · exact ih hn hmem

theorem hashmap_remove_sublist {α β : Type} [DecidableEq α] (h : List (α × β)) (k : α) :
    List.Sublist (hashmap_remove h k) h := by
  induction h with
  | nil => simp [hashmap_remove]
  | cons e t ih =>
      obtain ⟨k', v⟩ := e
      by_cases hk : k' = k
      · simp only [hashmap_remove, hk, if_true, ite_true]
        exact ih.cons (k, v)
      · simp only [hashmap_remove, hk, if_false, ite_false]
        exact ih.cons₂ (k', v)

theorem keysNodup_remove {α β : Type} [DecidableEq α] (h : List (α × β)) (k : α)
    (hd : keysNodup h) : keysNodup (hashmap_remove h k) :=
  ((hashmap_remove_sublist h k).map Prod.fst).nodup hd

theorem hashmap_remove_cons_self {α β : Type} [DecidableEq α] (t : List (α × β)) (k : α) (v : β)
    (hn : hashmap_get t k = none) : hashmap_remove ((k, v) :: t) k = t := by
  simp [hashmap_remove, hashmap_remove_of_get_none t k hn]

theorem keysNodup_insert {α β : Type} [DecidableEq α] (t : List (α × β)) (k : α) (v : β)
    (hn : hashmap_get t k = none) (hd : keysNodup t) : keysNodup ((k, v) :: t) := by
  simp only [keysNodup, List.map_cons, List.nodup_cons]
  exact ⟨not_mem_keys_of_get_none t k hn, hd⟩

/-! ### Claim theorems -/

/-- **C2**: `TakeControl` is denied with `AccessDenied` whenever the caller's
uid is neither 0 nor the owning user's uid with force unrequested; and
whenever it fails with `AccessDenied` the session — in particular the
controller binding — is left unchanged. -/
theorem method_take_control_access_denied (s : Session) (sender : String)
    (uid : Nat) (force : Bool) :
    (¬ (uid = 0 ∨ (uid = s.userUid ∧ force = false)) →
      method_take_control s sender uid force = (s, .error .accessDenied)) ∧
    ((method_take_control s sender uid force).2 = .error .accessDenied →
      (method_take_control s sender uid force).1 = s) := by
  constructor
  · intro hp
    have h : uid ≠ 0 ∧ (force = true ∨ uid ≠ s.userUid) := by
      push_neg at hp
      refine ⟨hp.1, ?_⟩
      by_cases hf : force = true
      · exact Or.inl hf
      · right
        intro hu
        exact absurd (by simpa using hf) (hp.2 hu)
    unfold method_take_control
    rw [if_pos h]
  · intro hc
    unfold method_take_control at hc ⊢
    by_cases h : uid ≠ 0 ∧ (force = true ∨ uid ≠ s.userUid)
    · rw [if_pos h]
    · rw [if_neg h] at hc ⊢
      cases hsc : session_set_controller s sender force with
      | error e => simp [hsc]
      | ok s' => rw [hsc] at hc; simp at hc

/-- Witness for C2 at session `S0` (owner uid 1000), sender "B", uid 7,
force=false: the precondition fails, the call is denied and the state is
unchanged. -/
theorem method_take_control_access_denied_witness :
    ¬ (7 = 0 ∨ (7 = S0.userUid ∧ false = false)) ∧
    method_take_control S0 "B" 7 false = (S0, .error .accessDenied) :=
  ⟨by decide, (method_take_control_access_denied S0 "B" 7 false).1 (by decide)⟩

/-- **C3** counterexample: session "S1" owned by uid 1000, connection "A"
(uid 1000) takes control without force; connection "B" (uid 1000) is denied
without force; "B" requesting force=true is *also* denied (a non-privileged
caller may never force), "A" stays in control and "A"'s `ReleaseControl`
still succeeds — the claimed forced takeover by uid 1000 does not happen. -/
theorem take_control_force_nonpriv_counterexample :
    (method_take_control S0 "A" 1000 false).2 = .ok () ∧
    (method_take_control s1A "B" 1000 false).2 = .error .accessDenied ∧
    (method_take_control s1A "B" 1000 true).2 = .error .accessDenied ∧
    (method_take_control s1A "B" 1000 true).1.controller = some "A" ∧
    (method_release_control (method_take_control s1A "B" 1000 true).1 "A").2 = .ok () := by
  decide

/-- **C3** amended: in the same scenario, the forced takeover evicting "A"
requires a privileged (uid 0) connection; after privileged "B" forces
control, "A"'s `ReleaseControl` fails with `NotInControl`, while the
non-forcing denial of "B" (uid 1000) leaves the binding intact. -/
theorem take_control_force_scenario :
    (method_take_control S0 "A" 1000 false).2 = .ok () ∧
    (method_take_control S0 "A" 1000 false).1.controller = some "A" ∧
    (method_take_control s1A "B" 1000 false).2 = .error .accessDenied ∧
    (method_take_control s1A "B" 1000 false).1 = s1A ∧
    (method_take_control s1A "B" 0 true).2 = .ok () ∧
    (method_take_control s1A "B" 0 true).1.controller = some "B" ∧
    (method_release_control (method_take_control s1A "B" 0 true).1 "A").2 =
      .error .notInControl := by
  decide

/-- **C10**: in `TakeDevice`, `ReleaseDevice` and `PauseDeviceComplete` the
controller check precedes the lease lookup: a non-controller sender always
gets `NotInControl` with the state unchanged, whatever the lease table
holds. -/
theorem non_controller_always_not_in_control (s : Session) (sender : String)
    (major minor : Nat) (openResult : Except Int (Nat × Bool)) (replyResult : Int)
    (h : session_is_controller s sender = false) :
    method_take_device s sender major minor openResult replyResult =
      (s, .error .notInControl) ∧
    method_release_device s sender major minor = (s, .error .notInControl) ∧
    method_pause_device_complete s sender major minor = (s, .error .notInControl) := by
  refine ⟨?_, ?_, ?_⟩ <;>
    simp [method_take_device, method_release_device, method_pause_device_complete, h]

/-- Witness for C10: sender "B" is not the controller of `sessionWithLease`
(controller "A", lease on (8, 0) present), and all three methods answer
`NotInControl`. -/
theorem non_controller_always_not_in_control_witness :
    method_take_device sessionWithLease "B" 8 0 (.ok (9, true)) 0 =
      (sessionWithLease, .error .notInControl) ∧
    method_release_device sessionWithLease "B" 8 0 = (sessionWithLease, .error .notInControl) ∧
    method_pause_device_complete sessionWithLease "B" 8 0 =
      (sessionWithLease, .error .notInControl) :=
  non_controller_always_not_in_control sessionWithLease "B" 8 0 (.ok (9, true)) 0 (by decide)

/-- **C6**: `Kill` treats the empty target exactly as "all"; an unknown
symbolic target fails with `InvalidArgs` before dispatch; a signal number
outside 1..NSIG-1 fails with `InvalidArgs` before dispatch (the dispatched
flag is the middle component). -/
theorem method_kill_validation (s : Session) (swho : String) (signo killResult : Int) :
    (method_kill s "" signo killResult = method_kill s "all" signo killResult) ∧
    (swho ≠ "" → kill_who_from_string swho = none →
      method_kill s swho signo killResult = (s, false, .error .invalidArgs)) ∧
    ((signo ≤ 0 ∨ NSIG ≤ signo) → (swho = "" ∨ (kill_who_from_string swho).isSome) →
      method_kill s swho signo killResult = (s, false, .error .invalidArgs)) := by
  refine ⟨rfl, ?_, ?_⟩
  · intro hne hks
    have he : isempty swho = false := by
      simp [isempty]; exact hne
    simp [method_kill, he, hks]
  · intro hsig htgt
    unfold method_kill
    by_cases he : isempty swho = true
    · simp [he, hsig]
    · rcases htgt with rfl | hsome
      · simp [isempty] at he
      · obtain ⟨w, hw⟩ := Option.isSome_iff_exists.mp hsome
        simp [he, hw, hsig]

/-- **C1** counterexample: `sessionWithLease` holds a lease on (8, 0), yet a
sender "B" that is not the controller calling `TakeDevice(8, 0)` gets
`NotInControl`, not `DeviceIsTaken` as claimed for "any sender" — though
indeed no second entry is created. -/
theorem take_device_any_sender_counterexample :
    hashmap_get sessionWithLease.devices (8, 0) = some sd80 ∧
    (method_take_device sessionWithLease "B" 8 0 (.ok (9, true)) 0).2 = .error .notInControl ∧
    (method_take_device sessionWithLease "B" 8 0 (.ok (9, true)) 0).2 ≠ .error .deviceIsTaken ∧
    (method_take_device sessionWithLease "B" 8 0 (.ok (9, true)) 0).1 = sessionWithLease := by
  decide

/-- **C1** amended: the lease table never gains a duplicate device
identifier — `TakeDevice` preserves key distinctness, and when a lease for
(major, minor) already exists the call leaves the session unchanged,
answering `DeviceIsTaken` to a sender passing the controller check
(including the controller already holding the lease) and `NotInControl` to
anyone else. -/
theorem take_device_no_duplicate_lease (s : Session) (sender : String)
    (major minor : Nat) (openResult : Except Int (Nat × Bool)) (replyResult : Int)
    (hd : keysNodup s.devices) :
    keysNodup (method_take_device s sender major minor openResult replyResult).1.devices ∧
    ((hashmap_get s.devices (major, minor)).isSome →
      (method_take_device s sender major minor openResult replyResult).1 = s ∧
      (method_take_device s sender major minor openResult replyResult).2 =
        (if session_is_controller s sender then .error .deviceIsTaken
         else .error .notInControl)) := by
  unfold method_take_device
  by_cases hc : session_is_controller s sender = true
  · rw [if_neg (by simp [hc])]
    cases hget : hashmap_get s.devices (major, minor) with
    | some sd =>
        refine ⟨hd, fun _ => ⟨rfl, ?_⟩⟩
        rw [if_pos hc]
    | none =>
        refine ⟨?_, fun hsome => by simp at hsome⟩
        cases openResult with
        | error e => exact hd
        | ok fdac =>
            obtain ⟨fd, active⟩ := fdac
            simp only [session_device_new]
            by_cases hr : replyResult < 0
            · rw [if_pos hr]
              simpa [session_device_free,
                hashmap_remove_cons_self s.devices (major, minor) _ hget] using hd
            · rw [if_neg hr]
              exact keysNodup_insert s.devices (major, minor) _ hget hd
  · rw [if_pos (by simp [hc])]
    exact ⟨hd, fun _ => ⟨rfl, by rw [if_neg hc]⟩⟩

/-- Witness for C1 (amended): the controller "A" retaking the already leased
(8, 0) is rejected with `DeviceIsTaken` and the session is unchanged. -/
theorem take_device_no_duplicate_lease_witness :
    keysNodup sessionWithLease.devices ∧
    (hashmap_get sessionWithLease.devices (8, 0)).isSome ∧
    (method_take_device sessionWithLease "A" 8 0 (.ok (9, true)) 0).1 = sessionWithLease ∧
    (method_take_device sessionWithLease "A" 8 0 (.ok (9, true)) 0).2 =
      .error .deviceIsTaken := by
  have h := take_device_no_duplicate_lease sessionWithLease "A" 8 0 (.ok (9, true)) 0 (by decide)
  have h2 := h.2 (by decide)
  refine ⟨by decide, by decide, h2.1, ?_⟩
  rw [h2.2]
  decide

/-- **C4**: if the controller takes an untaken device, the resource is
acquired and the lease inserted, but the reply to the caller fails, the
lease is rolled back — the session reverts to its pre-call state (entry
removed, resource released with it) and the reply error is surfaced. -/
theorem take_device_reply_failure_rollback (s : Session) (sender : String)
    (major minor : Nat) (fd : Nat) (active : Bool) (replyResult : Int)
    (hc : session_is_controller s sender = true)
    (hn : hashmap_get s.devices (major, minor) = none)
    (hr : replyResult < 0) :
    method_take_device s sender major minor (.ok (fd, active)) replyResult =
      (s, .error (.errno replyResult)) := by
  unfold method_take_device
  rw [if_neg (by simp [hc]), hn]
  simp [session_device_new, session_device_free, if_pos hr,
    hashmap_remove_cons_self s.devices (major, minor) _ hn]

/-- Witness for C4: controller "A" of `sessionNoLease` takes (8, 0), the
open succeeds with fd 5, the reply fails with -32 (EPIPE); the call leaves
the session unchanged and surfaces the reply errno. -/
theorem take_device_reply_failure_rollback_witness :
    session_is_controller sessionNoLease "A" = true ∧
    hashmap_get sessionNoLease.devices (8, 0) = none ∧
    (-32 : Int) < 0 ∧
    method_take_device sessionNoLease "A" 8 0 (.ok (5, true)) (-32) =
      (sessionNoLease, .error (.errno (-32))) :=
  ⟨by decide, by decide, by decide,
    take_device_reply_failure_rollback sessionNoLease "A" 8 0 5 true (-32)
      (by decide) (by decide) (by decide)⟩

/-- **C7**: for the controller, when no lease exists for (major, minor) both
`ReleaseDevice` and `PauseDeviceComplete` fail with `DeviceNotTaken` leaving
the session unchanged; and after a successful `ReleaseDevice` an immediate
second `ReleaseDevice` of the same device fails with `DeviceNotTaken`
leaving the released state unchanged. -/
theorem release_and_pause_device_not_taken (s : Session) (sender : String)
    (major minor : Nat)
    (hc : session_is_controller s sender = true) :
    (hashmap_get s.devices (major, minor) = none →
      method_release_device s sender major minor = (s, .error .deviceNotTaken) ∧
      method_pause_device_complete s sender major minor = (s, .error .deviceNotTaken)) ∧
    ((hashmap_get s.devices (major, minor)).isSome →
      (method_release_device s sender major minor).2 = .ok () ∧
      method_release_device (method_release_device s sender major minor).1 sender major minor =
        ((method_release_device s sender major minor).1, .error .deviceNotTaken)) := by
  constructor
  · intro hn
    constructor
    · unfold method_release_device
      rw [if_neg (by simp [hc]), hn]
    · unfold method_pause_device_complete
      rw [if_neg (by simp [hc]), hn]
  · intro hsome
    obtain ⟨sd, hget⟩ := Option.isSome_iff_exists.mp hsome
    have h1 : method_release_device s sender major minor =
        (session_device_free s (major, minor), .ok ()) := by
      unfold method_release_device
      rw [if_neg (by simp [hc]), hget]
    have hc' : session_is_controller (session_device_free s (major, minor)) sender = true := hc
    have hn' : hashmap_get (session_device_free s (major, minor)).devices (major, minor) =
        none := hashmap_get_remove_self s.devices (major, minor)
    constructor
    · rw [h1]
    · rw [h1]
      unfold method_release_device
      rw [if_neg (by simp [hc']), hn']

/-- Witness for C7: on `sessionNoLease` (controller "A", empty table) both
calls answer `DeviceNotTaken`; on `sessionWithLease` the first release of
(8, 0) succeeds and the second fails with `DeviceNotTaken`. -/
theorem release_and_pause_device_not_taken_witness :
    (method_release_device sessionNoLease "A" 8 0 =
        (sessionNoLease, .error .deviceNotTaken) ∧
      method_pause_device_complete sessionNoLease "A" 8 0 =
        (sessionNoLease, .error .deviceNotTaken)) ∧
    ((method_release_device sessionWithLease "A" 8 0).2 = .ok () ∧
      method_release_device (method_release_device sessionWithLease "A" 8 0).1 "A" 8 0 =
        ((method_release_device sessionWithLease "A" 8 0).1, .error .deviceNotTaken)) :=
  ⟨(release_and_pause_device_not_taken sessionNoLease "A" 8 0 (by decide)).1 (by decide),
   (release_and_pause_device_not_taken sessionWithLease "A" 8 0 (by decide)).2 (by decide)⟩

/-- **C8**: a successful `ReleaseDevice` immediately followed by a
`TakeDevice` of the same (major, minor) by the same controller succeeds
(with a successful open and reply): the release removed the table entry, so
no stale `DeviceIsTaken` is observed. -/
theorem release_then_take_device (s : Session) (sender : String) (major minor : Nat)
    (fd : Nat) (active : Bool) (replyResult : Int)
    (hc : session_is_controller s sender = true)
    (hs : (hashmap_get s.devices (major, minor)).isSome)
    (hr : 0 ≤ replyResult) :
    (method_release_device s sender major minor).2 = .ok () ∧
    (method_take_device (method_release_device s sender major minor).1 sender major minor
        (.ok (fd, active)) replyResult).2 = .ok (fd, !active) := by
  obtain ⟨sd, hget⟩ := Option.isSome_iff_exists.mp hs
  have h1 : method_release_device s sender major minor =
      (session_device_free s (major, minor), .ok ()) := by
    unfold method_release_device
    rw [if_neg (by simp [hc]), hget]
  have hc' : session_is_controller (session_device_free s (major, minor)) sender = true := hc
  have hn' : hashmap_get (session_device_free s (major, minor)).devices (major, minor) =
      none := hashmap_get_remove_self s.devices (major, minor)
  refine ⟨by rw [h1], ?_⟩
  rw [h1]
  unfold method_take_device
  rw [if_neg (by simp [hc']), hn']
  simp [session_device_new, if_neg (not_lt.mpr hr)]

/-- Witness for C8: releasing (8, 0) on `sessionWithLease` then retaking it
as "A" succeeds, handing back the fresh fd 5 and inactive flag. -/
theorem release_then_take_device_witness :
    session_is_controller sessionWithLease "A" = true ∧
    (hashmap_get sessionWithLease.devices (8, 0)).isSome ∧
    (method_release_device sessionWithLease "A" 8 0).2 = .ok () ∧
    (method_take_device (method_release_device sessionWithLease "A" 8 0).1 "A" 8 0
        (.ok (5, false)) 0).2 = .ok (5, true) := by
  have h := release_then_take_device sessionWithLease "A" 8 0 5 false 0
    (by decide) (by decide) (by decide)
  exact ⟨by decide, by decide, h.1, h.2⟩

/-- Witness for C6: `Kill(target="", signal=9)` coincides with target "all";
`Kill(target="bogus", signal=9)` and `Kill(target="all", signal=0)` fail with
`InvalidArgs` without dispatching. -/
theorem method_kill_validation_witness :
    (method_kill S0 "" 9 0 = method_kill S0 "all" 9 0) ∧
    method_kill S0 "bogus" 9 0 = (S0, false, .error .invalidArgs) ∧
    method_kill S0 "all" 0 0 = (S0, false, .error .invalidArgs) := by
  refine ⟨(method_kill_validation S0 "" 9 0).1, ?_, ?_⟩
  · exact (method_kill_validation S0 "bogus" 9 0).2.1 (by decide) (by decide)
  · exact (method_kill_validation S0 "all" 0 0).2.2 (by decide) (by decide)

/-- **C9**: path enumeration yields exactly one path per session in the
table — in table order — when every allocation succeeds, and otherwise
aborts wholesale with a negative error, handing back no partial list. -/
theorem session_node_enumerator_all_or_nothing (m : Manager) (alloc : Nat → Bool) :
    session_node_enumerator m alloc =
      .ok (m.sessions.map (fun p => session_bus_path p.2)) ∨
    ∃ e : Int, session_node_enumerator m alloc = .error e ∧ e < 0 := by
  have key : ∀ (l : List (String × Session)) (n : Nat) (acc : List String),
      session_node_enumerator_loop l alloc n acc =
        .ok (acc ++ l.map (fun p => session_bus_path p.2)) ∨
      ∃ e : Int, session_node_enumerator_loop l alloc n acc = .error e ∧ e < 0 := by
    intro l
    induction l with
    | nil =>
        intro n acc
        left
        simp [session_node_enumerator_loop]
    | cons p rest ih =>
        intro n acc
        obtain ⟨pid, s⟩ := p
        by_cases ha : alloc n = true
        · rcases ih (n + 1) (acc ++ [session_bus_path s]) with h | ⟨e, he, hneg⟩
          · left
            simp only [session_node_enumerator_loop, ha, ite_true]
            rw [h]
            simp
          · right
            refine ⟨e, ?_, hneg⟩
            simp only [session_node_enumerator_loop, ha, ite_true]
            exact he
        · right
          refine ⟨-12, ?_, by norm_num⟩
          simp [session_node_enumerator_loop, ha]
  simpa [session_node_enumerator] using key m.sessions 0 []

/-! ### Helper lemmas for the path escaping round trip -/

theorem unhexchar_hexchar (n : Nat) : unhexchar (hexchar n) = some (n % 16) := by
  have h : ∀ m, m < 16 → unhexchar (hexdigits.getD m '0') = some m := by decide
  simpa [hexchar] using h (n % 16) (Nat.mod_lt _ (by norm_num))

theorem char_unescaped_ne_underscore (first : Bool) (c : Char)
    (h : char_unescaped first c = true) : c ≠ '_' := by
  intro he
  subst he
  cases first <;> revert h <;> decide

theorem bus_path_unescape_chars_cons_ne (c : Char) (l : List Char) (hne : c ≠ '_') :
    bus_path_unescape_chars (c :: l) = c :: bus_path_unescape_chars l := by
  match l with
  | [] => simp [bus_path_unescape_chars, hne]
  | [a] => simp [bus_path_unescape_chars, hne]
  | a :: b :: rest => simp [bus_path_unescape_chars, hne]

theorem bus_path_unescape_chars_escape_seq (a b : Char) (l : List Char) (x y : Nat)
    (ha : unhexchar a = some x) (hb : unhexchar b = some y) :
    bus_path_unescape_chars ('_' :: a :: b :: l) =
      Char.ofNat (16 * x + y) :: bus_path_unescape_chars l := by
  simp [bus_path_unescape_chars, ha, hb]

theorem bus_path_unescape_escape_chars (first : Bool) (cs : List Char)
    (h : ∀ c ∈ cs, c.toNat < 256) :
    bus_path_unescape_chars (bus_path_escape_chars first cs) = cs := by
  induction cs generalizing first with
  | nil => rfl
  | cons c cs ih =>
      have hc : c.toNat < 256 := h c (by simp)
      have hrest : ∀ x ∈ cs, x.toNat < 256 := fun x hx => h x (by simp [hx])
      by_cases hu : char_unescaped first c = true
      · simp only [bus_path_escape_chars]
        rw [if_pos hu]
        simp only [List.singleton_append]
        rw [bus_path_unescape_chars_cons_ne c _ (char_unescaped_ne_underscore first c hu),
          ih false hrest]
      · simp only [bus_path_escape_chars]
        rw [if_neg hu]
        simp only [List.cons_append, List.nil_append]
        have h1 : unhexchar (hexchar (c.toNat / 16)) = some (c.toNat / 16) := by
          rw [unhexchar_hexchar]
          congr 1
          omega
        have h2 : unhexchar (hexchar c.toNat) = some (c.toNat % 16) := unhexchar_hexchar _
        rw [bus_path_unescape_chars_escape_seq _ _ _ _ _ h1 h2, ih false hrest]
        have hval : 16 * (c.toNat / 16) + c.toNat % 16 = c.toNat := by omega
        rw [hval, Char.ofNat_toNat]

theorem startswith_chars_append (p l : List Char) : startswith_chars (p ++ l) p = some l := by
  induction p with
  | nil => cases l <;> rfl
  | cons c t ih => simp [startswith_chars, ih]

/-- **C5** counterexample: the session whose identifier is the reserved
literal "self" sits in the session table, its encoded path is exactly the
reserved alias path, and looking that path up resolves through the calling
process's identity (unresolvable here) rather than through the table — the
round trip does not reach the session. -/
theorem session_object_find_self_counterexample :
    hashmap_get Mself.sessions Sself.id = some Sself ∧
    session_bus_path Sself = "/org/freedesktop/login1/session/self" ∧
    session_object_find Mself (session_bus_path Sself) none = none := by
  decide

/-- **C5** amended: for every session identifier made of bytes, other than
the reserved alias "self", decoding the path produced by `session_bus_path`
— escaping included — resolves to the session with that identifier whenever
it is in the session table, for any caller. -/
theorem session_object_find_round_trip (m : Manager) (s : Session) (cs : Option Session)
    (hbytes : ∀ c ∈ s.id.data, c.toNat < 256)
    (hself : s.id ≠ "self")
    (hin : hashmap_get m.sessions s.id = some s) :
    session_object_find m (session_bus_path s) cs = some s := by
  have hesc : bus_path_unescape (bus_path_escape s.id) = s.id := by
    apply String.ext
    show bus_path_unescape_chars (bus_path_escape_chars true s.id.data) = s.id.data
    exact bus_path_unescape_escape_chars true s.id.data hbytes
  have hpath : session_bus_path s ≠ "/org/freedesktop/login1/session/self" := by
    intro he
    apply hself
    have hdata := congrArg String.data he
    rw [session_bus_path, String.data_append] at hdata
    have hlit : ("/org/freedesktop/login1/session/self" : String).data =
        ("/org/freedesktop/login1/session/" : String).data ++ ("self" : String).data := by
      decide
    rw [hlit] at hdata
    have hescself : bus_path_escape s.id = "self" :=
      String.ext (List.append_cancel_left hdata)
    calc s.id = bus_path_unescape (bus_path_escape s.id) := hesc.symm
      _ = bus_path_unescape "self" := by rw [hescself]
      _ = "self" := by decide
  unfold session_object_find
  rw [if_neg hpath]
  have hsw : startswith (session_bus_path s) "/org/freedesktop/login1/session/" =
      some (bus_path_escape s.id) := by
    unfold startswith session_bus_path
    rw [String.data_append, startswith_chars_append]
    rfl
  rw [hsw]
  show hashmap_get m.sessions (bus_path_unescape (bus_path_escape s.id)) = some s
  rw [hesc]
  exact hin

/-- Witness for C5 (amended): the identifier "c 1" (space needs escaping)
round-trips through `session_bus_path` and `session_object_find` back to
its session. -/
theorem session_object_find_round_trip_witness :
    (∀ c ∈ Sesc.id.data, c.toNat < 256) ∧ Sesc.id ≠ "self" ∧
    hashmap_get Mesc.sessions Sesc.id = some Sesc ∧
    session_object_find Mesc (session_bus_path Sesc) none = some Sesc :=
  ⟨by decide, by decide, by decide,
    session_object_find_round_trip Mesc Sesc none (by decide) (by decide) (by decide)⟩

end Logind
